import Mathlib

/-!
Verification of the azure-blob-utils connector.

The repository has two near-duplicate connector implementations:
  src/azure_blob_utils/connector.py  (injectable credential, default fallback)
  src/connector.py                   (interactive-only credential)
We embed both.  Bytes are lists of naturals, the remote container is an
association list from blob path to content, the local filesystem likewise.
Scoped stream operations built with Python contextmanager generators are
embedded as functions taking the caller scope body explicitly: the pre-yield
statements run first, then the body, and the post-yield statements run only
when the body returns without raising (there is no try/finally around the
yield in the source).  Every operation also returns the list of observable
events it performed, so that claims about network calls can be stated.
-/

/-- A byte string: the contents of a blob, file or buffer. -/
abbrev Bytes := List Nat

/-- The remote container: association list from blob path to content. -/
abbrev Store := List (String × Bytes)

/-- The local filesystem: association list from path to file content. -/
abbrev FS := List (String × Bytes)

/-- Lookup in a path-to-content association list. -/
def assocLookup (s : List (String × Bytes)) (k : String) : Option Bytes :=
  match s with
  | [] => none
  | (k2, v) :: rest => if k2 = k then some v else assocLookup rest k

/-- Update or insert in a path-to-content association list. -/
def assocSet (s : List (String × Bytes)) (k : String) (v : Bytes) :
    List (String × Bytes) :=
  match s with
  | [] => [(k, v)]
  | (k2, v2) :: rest =>
      if k2 = k then (k2, v) :: rest else (k2, v2) :: assocSet rest k v

/-- Embedding of io.BytesIO: a resizable byte sequence with a cursor. -/
structure BytesIO where
  data : Bytes
  pos : Nat
  closed : Bool
  deriving DecidableEq, Repr

/-- A fresh empty buffer, as produced by BytesIO(). -/
def BytesIO.empty : BytesIO := ⟨[], 0, false⟩

/-- BytesIO.write: writes at the cursor, overwriting and extending, and
leaves the cursor after the written bytes. -/
def BytesIO.write (b : BytesIO) (xs : Bytes) : BytesIO :=
  ⟨b.data.take b.pos ++ xs ++ b.data.drop (b.pos + xs.length),
   b.pos + xs.length, b.closed⟩

/-- BytesIO.seek 0: set the cursor back to the start of the stream. -/
def BytesIO.seekStart (b : BytesIO) : BytesIO := ⟨b.data, 0, b.closed⟩

/-- The bytes a consumer reading from the buffer obtains: everything from
the current cursor to the end, which is what the storage client transmits
when handed the buffer object. -/
def BytesIO.readFromPos (b : BytesIO) : Bytes := b.data.drop b.pos

/-- Errors surfaced to the caller, mirroring the Python exceptions raised
by the source and its collaborators. -/
inductive PyError where
  | resourceNotFound                   -- azure ResourceNotFoundError
  | resourceExists                     -- azure ResourceExistsError
  | fileNotFound (path : String)       -- builtin FileNotFoundError
  | valueError (msg : String)          -- builtin ValueError
  | nameError (name : String)          -- builtin NameError
  | typeError (msg : String)           -- builtin TypeError
  | runtimeError                       -- contextlib RuntimeError raised when
                                       -- a contextmanager generator finishes
                                       -- without yielding; its fixed message
                                       -- says the generator did not yield and
                                       -- names no mode
  | callerError                        -- a failure raised by caller code
  deriving DecidableEq, Repr

/-- Observable events performed by an operation, in order. -/
inductive Event where
  | getBlobClient (path : String)      -- local client construction, no I/O
  | netDownload (path : String)        -- network read of a blob
  | netUpload (path : String)          -- network write of a blob
  | openLocal (path : String) (mode : String)  -- local file open
  | allocBuffer                        -- BytesIO() allocation
  | closeBuffer                        -- stream.close()
  | seekStart                          -- stream.seek(0)
  | yieldToCaller                      -- control handed to the scope body
  deriving DecidableEq, Repr

/-- Whether an event is a network call to the remote store. -/
def Event.isNetwork : Event → Bool
  | .netDownload _ => true
  | .netUpload _ => true
  | _ => false

/-- The module-level names defined in src/azure_blob_utils/connector.py:
its imports, the module constant and the class.  The name logger is not
among them, so the statement logger.debug(...) raises NameError. -/
def azureModuleNames : List String :=
  ["BinaryIO", "Optional", "Generator", "contextmanager", "BytesIO",
   "DefaultAzureCredential", "ContainerClient", "StorageStreamDownloader",
   "DEFAULT_CREDENTIAL", "AzureBlobStorageConnector"]

/-- The module-level names defined in src/connector.py: its imports and
the class.  The name logger is not among them either. -/
def ibModuleNames : List String :=
  ["BinaryIO", "contextmanager", "BytesIO", "InteractiveBrowserCredential",
   "ContainerClient", "StorageStreamDownloader", "AzureBlobStorageConnector"]

/-- Result of a scoped stream operation: the events performed, the store
after the operation, the buffer that was yielded to the caller (none when
a pre-yield failure prevented the yield), and the outcome seen by the
caller of the with-statement. -/
structure ScopeResult where
  trace : List Event
  store : Store
  yielded : Option BytesIO
  result : Except PyError Unit
  deriving Repr

/-- The caller scope body: receives the yielded buffer and either returns
the buffer in its final state or raises. -/
abbrev Body := BytesIO → Except PyError BytesIO

/-- Embedding of AzureBlobStorageConnector.download_stream from
src/azure_blob_utils/connector.py (lines 62-89):

    stream = BytesIO()
    blob_client = self.container_client.get_blob_client(blob_path)
    blob_client.download_blob().readinto(stream)
    yield stream
    logger.debug(...)        -- NameError: logger is undefined
    stream.close()

readinto fills the buffer and leaves its cursor at the end.  There is no
try/finally: a failure raised by the body propagates at the yield and the
two statements after it never run.  On a clean body exit the name logger
is looked up in the module globals. -/
def download_stream (store : Store) (blob_path : String) (body : Body) :
    ScopeResult :=
  let pre := [Event.allocBuffer, Event.getBlobClient blob_path,
              Event.netDownload blob_path]
  match assocLookup store blob_path with
  | none => ⟨pre, store, none, .error .resourceNotFound⟩
  | some content =>
      let stream : BytesIO := ⟨content, content.length, false⟩
      match body stream with
      | .error e => ⟨pre ++ [.yieldToCaller], store, some stream, .error e⟩
      | .ok _ =>
          if azureModuleNames.contains "logger" then
            ⟨pre ++ [.yieldToCaller, .closeBuffer], store, some stream, .ok ()⟩
          else
            ⟨pre ++ [.yieldToCaller], store, some stream,
             .error (.nameError "logger")⟩

/-- Embedding of AzureBlobStorageConnector.upload_stream from
src/azure_blob_utils/connector.py (lines 110-145):

    stream = BytesIO()
    yield stream
    stream.seek(0)
    blob_client = self.container_client.get_blob_client(blob_path)
    blob_client.upload_blob(stream, blob_type="BlockBlob", overwrite=overwrite)
    logger.debug(...)        -- NameError: logger is undefined
    stream.close()

A failure raised by the body propagates at the yield: the seek and the
upload never run.  upload_blob transmits the bytes from the buffer cursor
to the end and raises ResourceExistsError when overwrite is false and the
blob already exists. -/
def upload_stream (store : Store) (blob_path : String) (overwrite : Bool)
    (body : Body) : ScopeResult :=
  match body BytesIO.empty with
  | .error e =>
      ⟨[.allocBuffer, .yieldToCaller], store, some BytesIO.empty, .error e⟩
  | .ok b1 =>
      let b2 := b1.seekStart
      let pre := [Event.allocBuffer, Event.yieldToCaller, Event.seekStart,
                  Event.getBlobClient blob_path, Event.netUpload blob_path]
      if overwrite = false ∧ (assocLookup store blob_path).isSome then
        ⟨pre, store, some BytesIO.empty, .error .resourceExists⟩
      else
        let store2 := assocSet store blob_path b2.readFromPos
        if azureModuleNames.contains "logger" then
          ⟨pre ++ [.closeBuffer], store2, some BytesIO.empty, .ok ()⟩
        else
          ⟨pre, store2, some BytesIO.empty, .error (.nameError "logger")⟩

/-- Embedding of Python str.lower restricted to its effect on the mode
strings involved here: lower-cases every character. -/
def pyLower (s : String) : String := String.mk (s.data.map Char.toLower)

/-- Embedding of AzureBlobStorageConnector.open from
src/azure_blob_utils/connector.py (lines 147-180): dispatches on
mode.lower() to download_stream, upload_stream(overwrite=False),
upload_stream(overwrite=True), re-yielding the inner stream, and raises
ValueError naming the mode otherwise. -/
def openScope (store : Store) (blob_path : String) (mode : String)
    (body : Body) : ScopeResult :=
  if pyLower mode = "r" then download_stream store blob_path body
  else if pyLower mode = "w" then upload_stream store blob_path false body
  else if pyLower mode = "o" then upload_stream store blob_path true body
  else ⟨[], store, none, .error (.valueError ("Unknown mode: " ++ mode ++ "."))⟩

/-- Embedding of AzureBlobStorageConnector.open from src/connector.py
(lines 119-146): the same mode.lower() dispatch to download_stream,
upload_stream(overwrite=False), upload_stream(overwrite=True) — the stream
generators of that module are statement-identical to the azure ones and
logger is absent from its module names too (ibModuleNames), so they are
embedded by the same functions — but there is NO else branch: on an
unrecognized mode the generator finishes without yielding, and the
contextmanager machinery raises RuntimeError with its fixed
generator-did-not-yield message, naming no mode and performing no action. -/
def openScope_ib (store : Store) (blob_path : String) (mode : String)
    (body : Body) : ScopeResult :=
  if pyLower mode = "r" then download_stream store blob_path body
  else if pyLower mode = "w" then upload_stream store blob_path false body
  else if pyLower mode = "o" then upload_stream store blob_path true body
  else ⟨[], store, none, .error .runtimeError⟩

/-- Embedding of AzureBlobStorageConnector.download_blob from
src/azure_blob_utils/connector.py (lines 46-60):

    blob_client = self.container_client.get_blob_client(blob_path)
    with open(dest_path, "wb") as f:
        blob_client.download_blob().readinto(f)

open(dest_path, "wb") creates or truncates the destination file BEFORE the
remote read is issued; when the blob is missing, download_blob() raises
ResourceNotFoundError and the already-truncated file remains. -/
def download_blob (store : Store) (fs : FS) (blob_path dest_path : String) :
    List Event × FS × Except PyError Unit :=
  let fs1 := assocSet fs dest_path []
  let pre := [Event.getBlobClient blob_path, Event.openLocal dest_path "wb",
              Event.netDownload blob_path]
  match assocLookup store blob_path with
  | none => ⟨pre, fs1, .error .resourceNotFound⟩
  | some content => ⟨pre, assocSet fs1 dest_path content, .ok ()⟩

/-- Embedding of AzureBlobStorageConnector.download_blob from
src/connector.py (lines 30-44): here the remote read happens first, inside
self.\x5fdownload, and the destination file is opened only afterwards:

    blob_data = self._download(blob_path)
    with open(dest_path, "wb") as f:
        blob_data.readinto(f)
-/
def download_blob_ib (store : Store) (fs : FS) (blob_path dest_path : String) :
    List Event × FS × Except PyError Unit :=
  let pre := [Event.getBlobClient blob_path, Event.netDownload blob_path]
  match assocLookup store blob_path with
  | none => ⟨pre, fs, .error .resourceNotFound⟩
  | some content =>
      ⟨pre ++ [.openLocal dest_path "wb"], assocSet fs dest_path content, .ok ()⟩

/-- Embedding of AzureBlobStorageConnector.upload_blob from
src/azure_blob_utils/connector.py (lines 91-108):

    blob_client = self.container_client.get_blob_client(blob_path)
    with open(source_path, 'rb') as f:
        blob_client.upload_blob(f, blob_type="BlockBlob", overwrite=overwrite)

get_blob_client constructs a local client object without network traffic;
opening a missing source raises FileNotFoundError before the network call. -/
def upload_blob (store : Store) (fs : FS) (source_path blob_path : String)
    (overwrite : Bool) : List Event × Store × Except PyError Unit :=
  let pre := [Event.getBlobClient blob_path, Event.openLocal source_path "rb"]
  match assocLookup fs source_path with
  | none => ⟨pre, store, .error (.fileNotFound source_path)⟩
  | some content =>
      if overwrite = false ∧ (assocLookup store blob_path).isSome then
        ⟨pre ++ [.netUpload blob_path], store, .error .resourceExists⟩
      else
        ⟨pre ++ [.netUpload blob_path], assocSet store blob_path content, .ok ()⟩

/-- Python call binding for positional arguments: calling a function whose
parameters (all without defaults) are params with nargs positional
arguments raises TypeError when an argument is missing. -/
def callCheck (params : List String) (nargs : Nat) : Except PyError Unit :=
  if nargs < params.length then
    .error (.typeError ("missing 1 required positional argument: " ++
      ((params.drop nargs).headD "")))
  else .ok ()

/-- The parameters of the internal helper self.\x5fupload in
src/connector.py (lines 26-28), after self: obj, blob_path, overwrite,
none with a default. -/
def ibUploadParams : List String := ["obj", "blob_path", "overwrite"]

/-- Embedding of AzureBlobStorageConnector.upload_blob from
src/connector.py (lines 75-86):

    with open(source_path, 'rb') as f:
        self._upload(f, blob_path)

The call supplies two positional arguments to a helper requiring three, so
once the local file is open Python raises TypeError before the helper body
(and hence any network request) runs. -/
def upload_blob_ib (store : Store) (fs : FS) (source_path blob_path : String) :
    List Event × Store × Except PyError Unit :=
  let pre := [Event.openLocal source_path "rb"]
  match assocLookup fs source_path with
  | none => ⟨pre, store, .error (.fileNotFound source_path)⟩
  | some _ =>
      match callCheck ibUploadParams 2 with
      | .error e => ⟨pre, store, .error e⟩
      | .ok _ =>
          ⟨pre ++ [.getBlobClient blob_path, .netUpload blob_path],
           assocSet store blob_path [], .ok ()⟩

instance : DecidableEq (Except PyError Unit) := fun a b =>
  match a, b with
  | .ok u, .ok v => isTrue (by cases u; cases v; rfl)
  | .error e1, .error e2 =>
      if h : e1 = e2 then isTrue (h ▸ rfl)
      else isFalse fun hc => h (Except.error.inj hc)
  | .ok _, .error _ => isFalse fun hc => Except.noConfusion hc
  | .error _, .ok _ => isFalse fun hc => Except.noConfusion hc

/-- Setting a key and then looking it up yields the new value. -/
theorem assocLookup_assocSet (s : List (String × Bytes)) (k : String)
    (v : Bytes) : assocLookup (assocSet s k v) k = some v := by
  induction s with
  | nil => simp [assocSet, assocLookup]
  | cons hd tl ih =>
      obtain ⟨k2, v2⟩ := hd
      by_cases hk : k2 = k <;> simp [assocSet, assocLookup, hk, ih]

/-- The name logger is not among the module-level names of
src/azure_blob_utils/connector.py. -/
theorem azure_logger_undefined : "logger" ∉ azureModuleNames := by
  decide

/-- C3: if the caller scope body of upload_stream raises, the upload is
never attempted: the store is unchanged, no network event occurs, and the
failure propagates to the caller. -/
theorem upload_stream_no_flush_on_failure (store : Store) (p : String)
    (ow : Bool) (body : Body) (e : PyError)
    (h : body BytesIO.empty = .error e) :
    (upload_stream store p ow body).store = store ∧
    (upload_stream store p ow body).result = .error e ∧
    ∀ ev ∈ (upload_stream store p ow body).trace, ev.isNetwork = false := by
  refine ⟨?_, ?_, ?_⟩ <;> simp [upload_stream, h, Event.isNetwork]

theorem upload_stream_no_flush_on_failure_witness :
    (upload_stream [("p", [1])] "q" false (fun _ => .error .callerError)).store
      = [("p", [1])] ∧
    (upload_stream [("p", [1])] "q" false
      (fun _ => .error .callerError)).result = .error .callerError ∧
    ∀ ev ∈ (upload_stream [("p", [1])] "q" false
      (fun _ => .error .callerError)).trace, ev.isNetwork = false :=
  upload_stream_no_flush_on_failure [("p", [1])] "q" false
    (fun _ => .error .callerError) .callerError rfl

/-- C7: on a clean scope exit the cursor is reset to the start before the
upload, so the full buffer contents left by the caller are stored at the
blob path, whatever position the caller left the cursor at. -/
theorem upload_stream_uploads_full_contents (store : Store) (p : String)
    (body : Body) (b1 : BytesIO) (h : body BytesIO.empty = .ok b1) :
    assocLookup (upload_stream store p true body).store p = some b1.data := by
  simp [upload_stream, h, azure_logger_undefined, BytesIO.seekStart,
        BytesIO.readFromPos, assocLookup_assocSet]

theorem upload_stream_uploads_full_contents_witness :
    assocLookup (upload_stream [] "p" true
      (fun b => .ok (b.write [10, 20, 30]))).store "p" = some [10, 20, 30] :=
  upload_stream_uploads_full_contents [] "p"
    (fun b => .ok (b.write [10, 20, 30])) ( BytesIO.empty.write [10, 20, 30]) rfl

/-- C6: open dispatches mode r to download_stream, mode w to upload_stream
with overwrite false, and mode o to upload_stream with overwrite true,
yielding identical behaviour. -/
theorem open_mode_dispatch (store : Store) (p : String) (body : Body) :
    openScope store p "r" body = download_stream store p body ∧
    openScope store p "w" body = upload_stream store p false body ∧
    openScope store p "o" body = upload_stream store p true body := by
  refine ⟨?_, ?_, ?_⟩ <;> simp [openScope, pyLower]

/-- C1: the buffer is never closed on any exit path: when the body raises,
stream.close() after the yield is skipped (no try/finally), and on a clean
exit the NameError on the undefined name logger aborts before the close —
shown here on concrete download and upload scopes, failing and clean. -/
theorem stream_buffer_never_closed :
    (download_stream [("p", [1, 2])] "p"
      (fun _ => .error .callerError)).trace.contains .closeBuffer = false ∧
    (download_stream [("p", [1, 2])] "p"
      (fun b => .ok b)).trace.contains .closeBuffer = false ∧
    (upload_stream [] "p" false
      (fun _ => .error .callerError)).trace.contains .closeBuffer = false ∧
    (upload_stream [] "p" false
      (fun b => .ok (b.write [7]))).trace.contains .closeBuffer = false := by
  decide

/-- C9: on every clean scope exit the statement after the yield (after the
upload, for upload_stream) raises NameError on the undefined name logger,
stream.close() is never executed, and for upload_stream the remote store
has already been updated when the error reaches the caller. -/
theorem stream_clean_exit_raises_nameError (store : Store) (p q : String)
    (content : Bytes) (dbody ubody : Body) (b2 b3 : BytesIO)
    (hs : assocLookup store p = some content)
    (hd : dbody ⟨content, content.length, false⟩ = .ok b2)
    (hu : ubody BytesIO.empty = .ok b3) :
    (download_stream store p dbody).result = .error (.nameError "logger") ∧
    (download_stream store p dbody).trace.contains .closeBuffer = false ∧
    (upload_stream store q true ubody).result = .error (.nameError "logger") ∧
    assocLookup (upload_stream store q true ubody).store q = some b3.data ∧
    (upload_stream store q true ubody).trace.contains .closeBuffer = false := by
  refine ⟨?_, ?_, ?_, ?_, ?_⟩ <;>
    simp [download_stream, upload_stream, hs, hd, hu, azure_logger_undefined,
          BytesIO.seekStart, BytesIO.readFromPos, assocLookup_assocSet]

theorem stream_clean_exit_raises_nameError_witness :
    (download_stream [("p", [9])] "p" (fun b => .ok b)).result
      = .error (.nameError "logger") ∧
    (download_stream [("p", [9])] "p"
      (fun b => .ok b)).trace.contains .closeBuffer = false ∧
    (upload_stream [("p", [9])] "q" true
      (fun b => .ok (b.write [4, 5]))).result = .error (.nameError "logger") ∧
    assocLookup (upload_stream [("p", [9])] "q" true
      (fun b => .ok (b.write [4, 5]))).store "q" = some [4, 5] ∧
    (upload_stream [("p", [9])] "q" true
      (fun b => .ok (b.write [4, 5]))).trace.contains .closeBuffer = false :=
  stream_clean_exit_raises_nameError [("p", [9])] "p" "q" [9]
    (fun b => .ok b) (fun b => .ok (b.write [4, 5]))
    ⟨[9], 1, false⟩ ( BytesIO.empty.write [4, 5]) rfl rfl rfl

/-- C2 counterexample: the mode string R is not one of r, w, o, yet the
azure_blob_utils open does not raise ValueError: mode.lower() maps it to
r, so it dispatches to download_stream and issues a network read; and for
the mode string x the src/connector.py open raises RuntimeError (its
generator never yields), not a ValueError naming the mode. -/
theorem open_uppercase_mode_not_rejected :
    (openScope [("p", [5])] "p" "R" (fun b => .ok b)).result
      ≠ .error (.valueError "Unknown mode: R.") ∧
    (openScope [("p", [5])] "p" "R"
      (fun b => .ok b)).trace.contains (.netDownload "p") = true ∧
    (openScope_ib [] "p" "x" (fun b => .ok b)).result
      ≠ .error (.valueError "Unknown mode: x.") ∧
    (openScope_ib [] "p" "x" (fun b => .ok b)).result
      = .error .runtimeError := by
  decide

/-- C2 (amended): for every mode string whose lower-cased form is none of
r, w, o, the azure_blob_utils open raises ValueError naming the mode,
while the src/connector.py open (which has no else branch) raises the
contextmanager RuntimeError naming no mode; in both variants nothing is
performed at all, in particular no network call. -/
theorem open_invalid_mode_rejected (store : Store) (p mode : String)
    (body : Body) (h1 : pyLower mode ≠ "r") (h2 : pyLower mode ≠ "w")
    (h3 : pyLower mode ≠ "o") :
    (openScope store p mode body).result
      = .error (.valueError ("Unknown mode: " ++ mode ++ ".")) ∧
    (openScope store p mode body).trace = [] ∧
    (openScope_ib store p mode body).result = .error .runtimeError ∧
    (openScope_ib store p mode body).trace = [] := by
  simp [openScope, openScope_ib, h1, h2, h3]

theorem open_invalid_mode_rejected_witness :
    (openScope [] "p" "x" (fun b => .ok b)).result
      = .error (.valueError ("Unknown mode: " ++ "x" ++ ".")) ∧
    (openScope [] "p" "x" (fun b => .ok b)).trace = [] ∧
    (openScope_ib [] "p" "x" (fun b => .ok b)).result
      = .error .runtimeError ∧
    (openScope_ib [] "p" "x" (fun b => .ok b)).trace = [] :=
  open_invalid_mode_rejected [] "p" "x" (fun b => .ok b)
    (by decide) (by decide) (by decide)

/-- C4 counterexample: with an empty store and an empty filesystem,
download_blob on a missing blob raises ResourceNotFoundError, yet the
destination file, absent beforehand, exists (empty) afterwards: the
destination was created before the failing remote read. -/
theorem download_blob_creates_dest_on_missing_blob :
    (download_blob [] [] "missing" "out.csv").2.2
      = .error .resourceNotFound ∧
    assocLookup ([] : FS) "out.csv" = none ∧
    assocLookup (download_blob [] [] "missing" "out.csv").2.1 "out.csv"
      = some [] := by
  decide

/-- C4 (amended): on a missing blob both variants fail with
ResourceNotFoundError; the azure_blob_utils variant has already created or
truncated the destination file (it is left empty), while the src/connector.py
variant leaves the filesystem untouched. -/
theorem download_blob_missing_blob (store : Store) (fs : FS)
    (bp dp : String) (h : assocLookup store bp = none) :
    (download_blob store fs bp dp).2.2 = .error .resourceNotFound ∧
    assocLookup (download_blob store fs bp dp).2.1 dp = some [] ∧
    (download_blob_ib store fs bp dp).2.2 = .error .resourceNotFound ∧
    (download_blob_ib store fs bp dp).2.1 = fs := by
  simp [download_blob, download_blob_ib, h, assocLookup_assocSet]

theorem download_blob_missing_blob_witness :
    (download_blob [("a", [1])] [("f", [2])] "missing" "out").2.2
      = .error .resourceNotFound ∧
    assocLookup (download_blob [("a", [1])] [("f", [2])]
      "missing" "out").2.1 "out" = some [] ∧
    (download_blob_ib [("a", [1])] [("f", [2])] "missing" "out").2.2
      = .error .resourceNotFound ∧
    (download_blob_ib [("a", [1])] [("f", [2])] "missing" "out").2.1
      = [("f", [2])] :=
  download_blob_missing_blob [("a", [1])] [("f", [2])] "missing" "out" rfl

/-- C5: writing xs into an uploadStream scope that exits cleanly and whose
flush succeeds (overwrite, or the blob did not exist), then opening a
downloadStream on the same path, hands the caller a buffer holding exactly
xs, for every xs including the empty one. -/
theorem upload_download_roundtrip (store : Store) (p : String) (xs : Bytes)
    (ow : Bool) (dbody : Body)
    (h : ow = true ∨ assocLookup store p = none) :
    (download_stream
        (upload_stream store p ow (fun b => .ok (b.write xs))).store
        p dbody).yielded = some ⟨xs, xs.length, false⟩ := by
  have hb : BytesIO.empty.write xs = ⟨xs, xs.length, false⟩ := by
    simp [ BytesIO.empty, BytesIO.write]
  have hstore : (upload_stream store p ow
      (fun b => .ok (b.write xs))).store = assocSet store p xs := by
    rcases h with h | h <;>
      simp [upload_stream, hb, h, azure_logger_undefined, BytesIO.seekStart,
            BytesIO.readFromPos]
  rw [hstore]
  unfold download_stream
  rw [assocLookup_assocSet]
  cases hdb : dbody ⟨xs, xs.length, false⟩ <;>
    simp [hdb, azure_logger_undefined]

theorem upload_download_roundtrip_witness :
    (download_stream (upload_stream [("p", [1])] "p" true
        (fun b => .ok (b.write []))).store "p"
      (fun b => .ok b)).yielded = some ⟨[], 0, false⟩ ∧
    (download_stream (upload_stream [] "q" false
        (fun b => .ok (b.write [1, 2, 3]))).store "q"
      (fun b => .ok b)).yielded = some ⟨[1, 2, 3], 3, false⟩ :=
  ⟨upload_download_roundtrip [("p", [1])] "p" [] true
      (fun b => .ok b) (Or.inl rfl),
   upload_download_roundtrip [] "q" [1, 2, 3] false
      (fun b => .ok b) (Or.inr rfl)⟩

/-- C8: uploading from a missing local file fails with FileNotFoundError
naming the source path, makes no network call and leaves the remote store
unchanged, in both connector variants. -/
theorem upload_from_missing_file (store : Store) (fs : FS)
    (sp bp : String) (ow : Bool) (h : assocLookup fs sp = none) :
    (upload_blob store fs sp bp ow).2.2 = .error (.fileNotFound sp) ∧
    (∀ ev ∈ (upload_blob store fs sp bp ow).1, ev.isNetwork = false) ∧
    (upload_blob store fs sp bp ow).2.1 = store ∧
    (upload_blob_ib store fs sp bp).2.2 = .error (.fileNotFound sp) ∧
    (∀ ev ∈ (upload_blob_ib store fs sp bp).1, ev.isNetwork = false) ∧
    (upload_blob_ib store fs sp bp).2.1 = store := by
  refine ⟨?_, ?_, ?_, ?_, ?_, ?_⟩ <;>
    simp [upload_blob, upload_blob_ib, h, Event.isNetwork]

theorem upload_from_missing_file_witness :
    (upload_blob [("b", [1])] [] "src.csv" "b" false).2.2
      = .error (.fileNotFound "src.csv") ∧
    (∀ ev ∈ (upload_blob [("b", [1])] [] "src.csv" "b" false).1,
      ev.isNetwork = false) ∧
    (upload_blob [("b", [1])] [] "src.csv" "b" false).2.1 = [("b", [1])] ∧
    (upload_blob_ib [("b", [1])] [] "src.csv" "b").2.2
      = .error (.fileNotFound "src.csv") ∧
    (∀ ev ∈ (upload_blob_ib [("b", [1])] [] "src.csv" "b").1,
      ev.isNetwork = false) ∧
    (upload_blob_ib [("b", [1])] [] "src.csv" "b").2.1 = [("b", [1])] :=
  upload_from_missing_file [("b", [1])] [] "src.csv" "b" false rfl

/-- C10: in the src/connector.py variant, upload_blob on an existing
readable source always raises TypeError (the call to the internal helper
omits its required overwrite argument), before any network request, and
the remote store is unchanged. -/
theorem ib_upload_blob_always_typeError (store : Store) (fs : FS)
    (sp bp : String) (content : Bytes)
    (h : assocLookup fs sp = some content) :
    (upload_blob_ib store fs sp bp).2.2 = .error (.typeError
      ("missing 1 required positional argument: " ++ "overwrite")) ∧
    (∀ ev ∈ (upload_blob_ib store fs sp bp).1, ev.isNetwork = false) ∧
    (upload_blob_ib store fs sp bp).2.1 = store := by
  have hc : callCheck ibUploadParams 2 = .error (.typeError
      ("missing 1 required positional argument: " ++ "overwrite")) := by
    decide
  refine ⟨?_, ?_, ?_⟩ <;> simp [upload_blob_ib, h, hc, Event.isNetwork]

theorem ib_upload_blob_always_typeError_witness :
    (upload_blob_ib [] [("f.csv", [7, 8])] "f.csv" "b").2.2
      = .error (.typeError
        ("missing 1 required positional argument: " ++ "overwrite")) ∧
    (∀ ev ∈ (upload_blob_ib [] [("f.csv", [7, 8])] "f.csv" "b").1,
      ev.isNetwork = false) ∧
    (upload_blob_ib [] [("f.csv", [7, 8])] "f.csv" "b").2.1 = [] :=
  ib_upload_blob_always_typeError [] [("f.csv", [7, 8])] "f.csv" "b"
    [7, 8] rfl
